import Mathlib

/-!
Verification of the balanced-pair sampling core of `datasets/classification.py`:
the `EvenSampler` class, the `DomainAdaptationPairDataset` constructor and length
logic, and the `pairs_get_datasets` entry point.  Python lists of dataset indices
are modelled as `List Nat`; the class-bucket state that `EvenSampler.__iter__`
mutates is modelled as an explicit `SamplerState` threaded through `iterOnce`;
the outcome of every `random.*` call is passed in as an explicit argument, with
theorems quantifying over (or constraining) those outcomes.
-/

namespace DAPairs

/-- Indices (positions) of the entries of `labels` that equal `c`, in ascending
order — the model of `torch.flatten((self.labels == c).nonzero())` in
`EvenSampler.__init__`. -/
def classBucket (labels : List Nat) (c : Nat) : List Nat :=
  (List.range labels.length).filter (fun i => labels.getD i 0 == c)

/-- Per-class shot truncation: `idxs[0:shot]` when a shot is given (`shot != -1`
in the Python source, modelled as `some s`), the whole bucket otherwise. -/
def truncShot : Option Nat → List Nat → List Nat
  | none, b => b
  | some s, b => b.take s

/-- The part of a bucket dropped by shot truncation (`idxs[shot:]`,
`self.remain_class_idxs` in `EvenSampler.__init__`). -/
def remainShot : Option Nat → List Nat → List Nat
  | none, _ => []
  | some s, b => b.drop s

/-- The `EvenSampler` construction data: `labels` is the list
`[dataset.labels[idx] for idx in dataset.subset]`, `shot` the per-class cap
(`none` models the `-1` sentinel). -/
structure EvenSampler where
  labels : List Nat
  shot : Option Nat
deriving DecidableEq

/-- Model of `self.num_classes = len(torch.unique(self.labels))`. -/
def EvenSampler.numClasses (sp : EvenSampler) : Nat := sp.labels.dedup.length

/-- Model of `self.class_idxs` as built by `EvenSampler.__init__`: the shot-truncated
bucket of every class id in `range(num_classes)`. -/
def EvenSampler.classIdxs (sp : EvenSampler) : List (List Nat) :=
  (List.range sp.numClasses).map (fun c => truncShot sp.shot (classBucket sp.labels c))

/-- Model of `self.class_idx_lens`. -/
def EvenSampler.classIdxLens (sp : EvenSampler) : List Nat :=
  sp.classIdxs.map List.length

/-- Python's `min` over a nonempty list (the model is only applied where the
source list is nonempty; `min([])` raising is handled in `evenSamplerInit`). -/
def listMin : List Nat → Nat
  | [] => 0
  | x :: xs => xs.foldl Nat.min x

/-- Model of `self.min_len = min(self.class_idx_lens)`. -/
def EvenSampler.minLen (sp : EvenSampler) : Nat := listMin sp.classIdxLens

/-- Model of `EvenSampler.__init__` as a fallible constructor.  The only exception the
Python constructor can raise is the `ValueError` from `max`/`min` on the empty
`class_idx_lens` list, which happens exactly when there are no labels at all;
no `EmptyClassError` (or any per-class emptiness check) exists in the source. -/
def evenSamplerInit (labels : List Nat) (shot : Option Nat) : Except String EvenSampler :=
  let sp : EvenSampler := ⟨labels, shot⟩
  if sp.classIdxLens = [] then .error "ValueError: max() arg is an empty sequence"
  else .ok sp

/-- The mutable per-sampler state that `EvenSampler.__iter__` updates in place:
the current `self.class_idxs` together with the fixed `self.min_len`. -/
structure SamplerState where
  buckets : List (List Nat)
  minLen : Nat
deriving DecidableEq

/-- The state right after construction. -/
def EvenSampler.initState (sp : EvenSampler) : SamplerState :=
  ⟨sp.classIdxs, sp.minLen⟩

/-- One call of `EvenSampler.__iter__`.  `shuffled` is the outcome of the
`torch.randperm` shuffles, one reordered list per current bucket.  The call
stores `shuffled[i][0:min_len]` back into `self.class_idxs[i]` and emits the
column-interleaving of the truncated buckets (`torch.stack(..., dim=1)`
flattened row-major). -/
def iterOnce (st : SamplerState) (shuffled : List (List Nat)) : List Nat × SamplerState :=
  let newBuckets := shuffled.map (fun b => b.take st.minLen)
  ((List.range st.minLen).flatMap (fun k => newBuckets.map (fun b => b.getD k 0)),
   ⟨newBuckets, st.minLen⟩)

/-- Predicate: `shuffled` is a legal outcome of the per-bucket `torch.randperm` shuffles of
`bs`: same number of buckets, each a permutation of the corresponding bucket. -/
def ShuffleOf (bs sh : List (List Nat)) : Prop :=
  bs.length = sh.length ∧ ∀ p ∈ bs.zip sh, p.1.Perm p.2

instance (bs sh : List (List Nat)) : Decidable (ShuffleOf bs sh) := by
  unfold ShuffleOf; infer_instance

/-- All sequences one `__iter__` call can emit from state `st`, enumerating
every choice of per-bucket shuffle. -/
def possibleIters (st : SamplerState) : List (List Nat) :=
  ((st.buckets.map List.permutations').sections).map (fun sh => (iterOnce st sh).1)

-- ======================= helper lemmas =======================

theorem foldl_min_le_init (xs : List Nat) (a : Nat) : xs.foldl Nat.min a ≤ a := by
  induction xs generalizing a with
  | nil => exact Nat.le_refl a
  | cons y ys ih => exact Nat.le_trans (ih (Nat.min a y)) (Nat.min_le_left a y)

theorem foldl_min_le_mem (xs : List Nat) (a x : Nat) (hx : x ∈ xs) :
    xs.foldl Nat.min a ≤ x := by
  induction xs generalizing a with
  | nil => cases hx
  | cons y ys ih =>
    rcases List.mem_cons.mp hx with h | h
    · subst h
      exact Nat.le_trans (foldl_min_le_init ys (Nat.min a x)) (Nat.min_le_right a x)
    · exact ih (Nat.min a y) h

theorem listMin_le (l : List Nat) (x : Nat) (hx : x ∈ l) : listMin l ≤ x := by
  cases l with
  | nil => cases hx
  | cons y ys =>
    rcases List.mem_cons.mp hx with h | h
    · subst h; exact foldl_min_le_init ys x
    · exact foldl_min_le_mem ys y x h

theorem classIdxs_length (sp : EvenSampler) : sp.classIdxs.length = sp.numClasses := by
  simp [EvenSampler.classIdxs]

theorem classIdxs_getD (sp : EvenSampler) (c : Nat) (hc : c < sp.numClasses) :
    sp.classIdxs.getD c [] = truncShot sp.shot (classBucket sp.labels c) := by
  rw [List.getD_eq_getElem _ _ (by rw [classIdxs_length]; exact hc)]
  simp [EvenSampler.classIdxs]

theorem minLen_le_bucket (sp : EvenSampler) (c : Nat) (hc : c < sp.numClasses) :
    sp.minLen ≤ (sp.classIdxs.getD c []).length := by
  apply listMin_le
  have h1 : c < sp.classIdxs.length := by rw [classIdxs_length]; exact hc
  have h2 : sp.classIdxs.getD c [] = sp.classIdxs[c] := List.getD_eq_getElem _ _ h1
  rw [EvenSampler.classIdxLens, h2]
  exact List.mem_map.mpr ⟨sp.classIdxs[c], List.getElem_mem h1, rfl⟩

theorem mem_classIdxs_label (sp : EvenSampler) (c x : Nat) (hc : c < sp.numClasses)
    (hx : x ∈ sp.classIdxs.getD c []) : sp.labels.getD x 0 = c := by
  rw [classIdxs_getD sp c hc] at hx
  have hx2 : x ∈ classBucket sp.labels c := by
    cases hs : sp.shot with
    | none => rw [hs] at hx; exact hx
    | some s => rw [hs] at hx; exact List.take_subset _ _ hx
  have := (List.mem_filter.mp hx2).2
  simpa using this

theorem flatMap_range_length {α : Type} (f : Nat → List α) (m c : Nat)
    (hf : ∀ k, k < m → (f k).length = c) :
    ((List.range m).flatMap f).length = m * c := by
  rw [List.length_flatMap]
  have : (List.range m).map (List.length ∘ f) = List.replicate m c := by
    rw [List.eq_replicate_iff]
    constructor
    · simp
    · intro b hb
      rcases List.mem_map.mp hb with ⟨k, hk, hkb⟩
      rw [← hkb]
      exact hf k (List.mem_range.mp hk)
  rw [this, List.sum_replicate, smul_eq_mul]

theorem flatMap_range_getD {α : Type} (f : Nat → List α) (m c : Nat)
    (hf : ∀ k, k < m → (f k).length = c)
    (k i : Nat) (hk : k < m) (hi : i < c) (d : α) :
    ((List.range m).flatMap f).getD (k * c + i) d = (f k).getD i d := by
  induction m with
  | zero => omega
  | succ n ih =>
    rw [List.range_succ, List.flatMap_append]
    have hlen : ((List.range n).flatMap f).length = n * c :=
      flatMap_range_length f n c (fun j hj => hf j (Nat.lt_succ_of_lt hj))
    rcases Nat.lt_succ_iff_lt_or_eq.mp hk with h | h
    · rw [List.getD_append]
      · exact ih (fun j hj => hf j (Nat.lt_succ_of_lt hj)) h
      · rw [hlen]
        calc k * c + i < k * c + c := by omega
          _ = (k + 1) * c := by ring
          _ ≤ n * c := Nat.mul_le_mul_right c h
    · subst h
      rw [List.getD_append_right _ _ _ _ (by rw [hlen]; exact Nat.le_add_right _ _)]
      rw [hlen]
      simp

theorem getD_map_of_lt {α β : Type} (f : α → β) (l : List α) (c : Nat)
    (hc : c < l.length) (d : β) (d' : α) :
    (l.map f).getD c d = f (l.getD c d') := by
  rw [List.getD_eq_getElem _ _ (show c < (l.map f).length by simpa using hc),
    List.getElem_map, List.getD_eq_getElem _ _ hc]

theorem shuffleOf_get (bs sh : List (List Nat)) (h : ShuffleOf bs sh)
    (i : Nat) (hi : i < bs.length) :
    (bs.getD i []).Perm (sh.getD i []) := by
  obtain ⟨hlen, hmem⟩ := h
  have hi2 : i < sh.length := by rw [← hlen]; exact hi
  have hz : i < (bs.zip sh).length := by
    rw [List.length_zip]; exact Nat.lt_min.mpr ⟨hi, hi2⟩
  have := hmem (bs.zip sh)[i] (List.getElem_mem hz)
  rw [List.getElem_zip] at this
  rw [List.getD_eq_getElem _ _ hi, List.getD_eq_getElem _ _ hi2]
  exact this

/-- C1: a fresh `__iter__` call on an `EvenSampler` emits a sequence of total
length `num_classes * min_len`, arranged in `min_len` blocks of `num_classes`
consecutive indices in which slot `c` of every block holds an index of class
`c` — so each block contains exactly one index of every class, with the class
order fixed across blocks.  The shuffle outcome is universally quantified. -/
theorem evenSampler_fresh_iter_balanced (sp : EvenSampler) (sh : List (List Nat))
    (_hl : ∀ l ∈ sp.labels, l < sp.numClasses)
    (hsh : ShuffleOf sp.initState.buckets sh) :
    (iterOnce sp.initState sh).1.length = sp.numClasses * sp.minLen ∧
    ∀ k, k < sp.minLen → ∀ c, c < sp.numClasses →
      sp.labels.getD ((iterOnce sp.initState sh).1.getD (k * sp.numClasses + c) 0) 0 = c := by
  have hshlen : sh.length = sp.numClasses := by
    rw [← hsh.1]; exact classIdxs_length sp
  have hbuck : ∀ c, c < sp.numClasses →
      (sp.classIdxs.getD c []).Perm (sh.getD c []) := by
    intro c hc
    exact shuffleOf_get _ _ hsh c
      (by simpa [EvenSampler.initState, classIdxs_length] using hc)
  have hshb : ∀ c, c < sp.numClasses →
      sp.minLen ≤ (sh.getD c []).length := by
    intro c hc
    rw [← (hbuck c hc).length_eq]
    exact minLen_le_bucket sp c hc
  -- the truncated buckets
  have hnb : ∀ c, c < sp.numClasses →
      ((sh.map (fun b => b.take sp.minLen)).getD c []) = (sh.getD c []).take sp.minLen := by
    intro c hc
    have hc2 : c < sh.length := by rw [hshlen]; exact hc
    rw [List.getD_eq_getElem _ _ (by simpa using hc2), List.getD_eq_getElem _ _ hc2]
    simp
  have hnblen : ∀ c, c < sp.numClasses →
      ((sh.map (fun b => b.take sp.minLen)).getD c []).length = sp.minLen := by
    intro c hc
    rw [hnb c hc, List.length_take]
    exact Nat.min_eq_left (hshb c hc)
  have hrow : ∀ k, k < sp.minLen →
      ((sh.map (fun b => b.take sp.minLen)).map (fun b => b.getD k 0)).length
        = sp.numClasses := by
    intro k _
    simp [hshlen]
  constructor
  · show ((List.range sp.minLen).flatMap
        (fun k => (sh.map (fun b => b.take sp.minLen)).map (fun b => b.getD k 0))).length = _
    rw [flatMap_range_length _ sp.minLen sp.numClasses hrow]
    exact Nat.mul_comm _ _
  · intro k hk c hc
    show sp.labels.getD (((List.range sp.minLen).flatMap
        (fun j => (sh.map (fun b => b.take sp.minLen)).map (fun b => b.getD j 0))).getD
          (k * sp.numClasses + c) 0) 0 = c
    rw [flatMap_range_getD _ sp.minLen sp.numClasses hrow k c hk hc 0]
    have hcm : c < ((sh.map (fun b => b.take sp.minLen))).length := by
      simpa [hshlen] using hc
    rw [getD_map_of_lt (fun b => b.getD k 0) (sh.map (fun b => b.take sp.minLen)) c hcm 0 []]
    rw [hnb c hc]
    have hlen : ((sh.getD c []).take sp.minLen).length = sp.minLen := by
      rw [List.length_take]; exact Nat.min_eq_left (hshb c hc)
    have hk2 : k < ((sh.getD c []).take sp.minLen).length := by rw [hlen]; exact hk
    have hx : ((sh.getD c []).take sp.minLen).getD k 0 ∈ sp.classIdxs.getD c [] := by
      rw [List.getD_eq_getElem _ _ hk2]
      have hmem : ((sh.getD c []).take sp.minLen)[k] ∈ sh.getD c [] :=
        List.take_subset _ _ (List.getElem_mem hk2)
      exact ((hbuck c hc).mem_iff).mpr hmem
    exact mem_classIdxs_label sp c _ hc hx

/-- C1 witness: the spec's `{cat: 10, dog: 4}` scenario (labels `0`/`1`), no
shot, identity shuffle: the fresh iteration emits `2 * 4 = 8` indices. -/
theorem evenSampler_fresh_iter_balanced_witness :
    (iterOnce (⟨List.replicate 10 0 ++ List.replicate 4 1, none⟩ : EvenSampler).initState
      [[0, 1, 2, 3, 4, 5, 6, 7, 8, 9], [10, 11, 12, 13]]).1.length = 8 :=
  (evenSampler_fresh_iter_balanced
    (⟨List.replicate 10 0 ++ List.replicate 4 1, none⟩ : EvenSampler)
    [[0, 1, 2, 3, 4, 5, 6, 7, 8, 9], [10, 11, 12, 13]]
    (by decide) (by decide)).1.trans (by decide)

theorem iterOnce_length (st : SamplerState) (sh : List (List Nat)) :
    (iterOnce st sh).1.length = st.minLen * sh.length := by
  show ((List.range st.minLen).flatMap
    (fun k => (sh.map (fun b => b.take st.minLen)).map (fun b => b.getD k 0))).length = _
  rw [flatMap_range_length _ st.minLen sh.length (fun k _ => by simp)]

theorem retained_bucket_length (sp : EvenSampler) (sh1 : List (List Nat))
    (h1 : ShuffleOf sp.initState.buckets sh1) :
    ∀ b ∈ (iterOnce sp.initState sh1).2.buckets, b.length = sp.minLen := by
  intro b hb
  have hb2 : b ∈ sh1.map (fun a => a.take sp.minLen) := hb
  rcases List.mem_map.mp hb2 with ⟨a, ha, hab⟩
  rcases List.getElem_of_mem ha with ⟨i, hi, hia⟩
  have hi2 : i < sp.numClasses := by
    rw [← h1.1] at hi
    rwa [show sp.initState.buckets.length = sp.numClasses from classIdxs_length sp] at hi
  have hperm := shuffleOf_get _ _ h1 i
    (show i < sp.classIdxs.length by rw [classIdxs_length sp]; exact hi2)
  have halen : sp.minLen ≤ a.length := by
    have h3 : sh1.getD i [] = a := by rw [List.getD_eq_getElem _ _ hi]; exact hia
    rw [← h3, ← hperm.length_eq]
    exact minLen_le_bucket sp i hi2
  rw [← hab, List.length_take]
  exact Nat.min_eq_left halen

/-- C4 (amended): each `__iter__` call shuffles the sampler's CURRENT buckets
— which after the first call are the `min_len`-length subsets retained by that
call, `self.class_idxs` being overwritten in place — and truncates to
`min_len`.  Two successive calls therefore yield sequences of identical
length, but every index emitted by the second call comes from a bucket the
first call retained, not from the entire original bucket. -/
theorem evenSampler_second_iter_from_retained (sp : EvenSampler)
    (sh1 sh2 : List (List Nat))
    (h1 : ShuffleOf sp.initState.buckets sh1)
    (h2 : ShuffleOf (iterOnce sp.initState sh1).2.buckets sh2) :
    (iterOnce (iterOnce sp.initState sh1).2 sh2).1.length
      = (iterOnce sp.initState sh1).1.length ∧
    ∀ x ∈ (iterOnce (iterOnce sp.initState sh1).2 sh2).1,
      ∃ b ∈ (iterOnce sp.initState sh1).2.buckets, x ∈ b := by
  have hlen12 : sh2.length = sh1.length := by
    have := h2.1
    simpa [iterOnce] using this.symm
  constructor
  · rw [iterOnce_length, iterOnce_length]
    show sp.minLen * sh2.length = sp.minLen * sh1.length
    rw [hlen12]
  · intro x hx
    have hx2 : x ∈ (List.range sp.minLen).flatMap
        (fun k => (sh2.map (fun b => b.take sp.minLen)).map (fun b => b.getD k 0)) := hx
    rcases List.mem_flatMap.mp hx2 with ⟨k, hk, hxk⟩
    rcases List.mem_map.mp hxk with ⟨b, hb, hbx⟩
    rcases List.mem_map.mp hb with ⟨a, ha, hab⟩
    rcases List.getElem_of_mem ha with ⟨i, hi, hia⟩
    have hib : i < (iterOnce sp.initState sh1).2.buckets.length := by
      rw [h2.1]; exact hi
    have hperm : ((iterOnce sp.initState sh1).2.buckets.getD i []).Perm a := by
      have := shuffleOf_get _ _ h2 i hib
      rwa [List.getD_eq_getElem _ _ hi, hia] at this
    have hbuckmem : (iterOnce sp.initState sh1).2.buckets.getD i []
        ∈ (iterOnce sp.initState sh1).2.buckets := by
      rw [List.getD_eq_getElem _ _ hib]
      exact List.getElem_mem hib
    have halen : a.length = sp.minLen := by
      rw [← hperm.length_eq]
      exact retained_bucket_length sp sh1 h1 _ hbuckmem
    have hkb : k < b.length := by
      rw [← hab, List.length_take, halen]
      simpa using List.mem_range.mp hk
    have hxb : x ∈ b := by
      rw [← hbx, List.getD_eq_getElem _ _ hkb]
      exact List.getElem_mem hkb
    have hxa : x ∈ a := by
      rw [← hab] at hxb
      exact List.take_subset _ _ hxb
    exact ⟨_, hbuckmem, hperm.mem_iff.mpr hxa⟩

/-- C4 witness: on labels `[0,0,1]`, a first call retaining `[[1],[2]]` and a
second call on the mutated state produce sequences of the same length. -/
theorem evenSampler_second_iter_from_retained_witness :
    (iterOnce (iterOnce (⟨[0, 0, 1], none⟩ : EvenSampler).initState [[1, 0], [2]]).2
      [[1], [2]]).1.length
      = (iterOnce (⟨[0, 0, 1], none⟩ : EvenSampler).initState [[1, 0], [2]]).1.length :=
  (evenSampler_second_iter_from_retained (⟨[0, 0, 1], none⟩ : EvenSampler)
    [[1, 0], [2]] [[1], [2]] (by decide) (by decide)).1

theorem iterOnce_mem_possibleIters (st : SamplerState) (sh : List (List Nat))
    (h : ShuffleOf st.buckets sh) : (iterOnce st sh).1 ∈ possibleIters st := by
  apply List.mem_map.mpr
  refine ⟨sh, ?_, rfl⟩
  rw [List.mem_sections, List.forall₂_iff_zip]
  constructor
  · simpa using h.1.symm
  · intro a b hab
    rcases List.getElem_of_mem hab with ⟨i, hi, hie⟩
    have hi1 : i < sh.length := by
      have h0 := hi; rw [List.length_zip] at h0; omega
    have hi2 : i < st.buckets.length := by
      have h0 := hi; rw [List.length_zip, List.length_map] at h0; omega
    rw [List.getElem_zip] at hie
    injection hie with ha hb
    rw [← ha, ← hb, List.getElem_map, List.mem_permutations']
    have hg := shuffleOf_get st.buckets sh h i hi2
    rw [List.getD_eq_getElem _ _ hi2, List.getD_eq_getElem _ _ hi1] at hg
    exact hg.symm

/-- C4 counterexample: on labels `[0,0,1]` the original class-0 bucket is
`[0,1]` and `[0,2]` is a possible fresh-iteration output; after a first call
whose shuffle retained `[[1],[2]]`, every possible second call emits `[1,2]` —
index `0`, though in the entire original class-0 bucket, can no longer be
drawn, so the second call does NOT draw from the entire original bucket. -/
theorem evenSampler_second_iter_cex :
    ShuffleOf (⟨[0, 0, 1], none⟩ : EvenSampler).initState.buckets [[1, 0], [2]] ∧
    (⟨[0, 0, 1], none⟩ : EvenSampler).classIdxs.getD 0 [] = [0, 1] ∧
    [0, 2] ∈ possibleIters (⟨[0, 0, 1], none⟩ : EvenSampler).initState ∧
    (iterOnce (⟨[0, 0, 1], none⟩ : EvenSampler).initState [[1, 0], [2]]).2.buckets
      = [[1], [2]] ∧
    possibleIters (iterOnce (⟨[0, 0, 1], none⟩ : EvenSampler).initState [[1, 0], [2]]).2
      = [[1, 2]] := by decide

/-- C7 (amended): `EvenSampler.__init__` performs no per-class emptiness check:
construction succeeds exactly when the label list is nonempty (the only failure
is Python's `ValueError` from `max()` on an empty `class_idx_lens`), and a class
bucket that is empty before truncation merely forces `min_len = 0`. -/
theorem evenSamplerInit_no_emptyClassError (labels : List Nat) (shot : Option Nat)
    (c : Nat) :
    ((evenSamplerInit labels shot).isOk = true ↔ labels ≠ []) ∧
    (c < (⟨labels, shot⟩ : EvenSampler).numClasses →
      (⟨labels, shot⟩ : EvenSampler).classIdxs.getD c [] = [] →
      (⟨labels, shot⟩ : EvenSampler).minLen = 0) := by
  constructor
  · have hnil : (⟨labels, shot⟩ : EvenSampler).classIdxLens = [] ↔ labels = [] := by
      simp [EvenSampler.classIdxLens, EvenSampler.classIdxs, EvenSampler.numClasses,
        List.dedup_eq_nil]
    rcases Decidable.em (labels = []) with he | he
    · subst he
      simp [evenSamplerInit, EvenSampler.classIdxLens, EvenSampler.classIdxs,
        EvenSampler.numClasses, Except.isOk, Except.toBool]
    · have h2 : (⟨labels, shot⟩ : EvenSampler).classIdxLens ≠ [] :=
        fun hh => he (hnil.mp hh)
      simp [evenSamplerInit, h2, Except.isOk, Except.toBool, he]
  · intro hc hempty
    have hcl : c < (⟨labels, shot⟩ : EvenSampler).classIdxLens.length := by
      simp [EvenSampler.classIdxLens, classIdxs_length]
      exact hc
    have hmem : (0 : Nat) ∈ (⟨labels, shot⟩ : EvenSampler).classIdxLens := by
      have : (⟨labels, shot⟩ : EvenSampler).classIdxLens[c] = 0 := by
        have hcc : c < (⟨labels, shot⟩ : EvenSampler).classIdxs.length := by
          rw [classIdxs_length]; exact hc
        simp only [EvenSampler.classIdxLens, List.getElem_map]
        rw [← List.getD_eq_getElem _ ([] : List Nat) hcc, hempty]
        rfl
      rw [← this]
      exact List.getElem_mem hcl
    exact Nat.le_zero.mp (listMin_le _ 0 hmem)

/-- C7 witness: on labels `[0,0,2]`, class id `1` has an empty bucket, so
`min_len = 0`. -/
theorem evenSamplerInit_no_emptyClassError_witness :
    (⟨[0, 0, 2], (none : Option Nat)⟩ : EvenSampler).minLen = 0 :=
  (evenSamplerInit_no_emptyClassError [0, 0, 2] none 1).2 (by decide) (by decide)

/-- C7 counterexample: labels `[0,0,2]` give `num_classes = 2` and an empty
class-1 bucket before truncation, yet construction succeeds — no
`EmptyClassError` (or any error) is raised. -/
theorem evenSamplerInit_no_emptyClassError_cex :
    (evenSamplerInit [0, 0, 2] none).isOk = true ∧
    (⟨[0, 0, 2], none⟩ : EvenSampler).numClasses = 2 ∧
    classBucket [0, 0, 2] 1 = [] ∧
    (⟨[0, 0, 2], none⟩ : EvenSampler).classIdxs.getD 1 [] = [] := by decide

-- ============ DomainAdaptationPairDataset (classification.py lines 255-412) ============

/-- Model of `self.num_G1_pairs` before clamping: `sum([comb(s_lens[i],2) for i in
range(s.num_classes)])` — same-domain same-class capacity. -/
def num_G1_pairs (s : EvenSampler) : Nat :=
  ((List.range s.numClasses).map (fun i => Nat.choose (s.classIdxLens.getD i 0) 2)).sum

/-- Model of `self.num_G2_pairs` before clamping: `sum([s_lens[i]*t_lens[i] for i in
range(t.num_classes)])` — cross-domain same-class capacity. -/
def num_G2_pairs (s t : EvenSampler) : Nat :=
  ((List.range t.numClasses).map
    (fun i => s.classIdxLens.getD i 0 * t.classIdxLens.getD i 0)).sum

/-- Model of `self.num_G3_pairs` before clamping: `comb(len(s.labels), 2)` — the
same-domain different-class capacity, deliberately NOT excluding same-class
combinations. -/
def num_G3_pairs (s : EvenSampler) : Nat := Nat.choose s.labels.length 2

/-- Model of `self.num_G4_pairs` before clamping: the double sum over `i` in
`range(t.num_classes)` and `j != i` in `range(s.num_classes)` of
`s_lens[j]*t_lens[i]` — cross-domain different-class capacity. -/
def num_G4_pairs (s t : EvenSampler) : Nat :=
  ((List.range t.numClasses).map (fun i =>
    (((List.range s.numClasses).filter (fun j => decide (i ≠ j))).map
      (fun j => s.classIdxLens.getD j 0 * t.classIdxLens.getD i 0)).sum)).sum

/-- Model of `min([G1, G2, G3, G4])` — Python's minimum of the four
capacities. -/
def minCapacity (s t : EvenSampler) : Nat :=
  Nat.min (Nat.min (Nat.min (num_G1_pairs s) (num_G2_pairs s t)) (num_G3_pairs s))
    (num_G4_pairs s t)

/-- Model of `self.min_pairs` after `//= pair_factor`: the shared budget. -/
def sharedBudget (s t : EvenSampler) (pf : Nat) : Nat := minCapacity s t / pf

/-- One materialized pair: the two dataset indices (standing for the stored
image paths `self.imgs[x]`) and the stored label tuple
`(pair_label, (label_a, label_b))`. -/
abbrev DAPair := (Nat × Nat) × (Nat × Nat × Nat)

/-- One G1 draw: from partition picks `p1, p2` and class slot `c`, read
`s_sub[s_sampler_idxs[p1*nc+c]]` and `s_sub[s_sampler_idxs[p2*nc+c]]`;
`none` models the `IndexError` when a lookup is out of range. -/
def g1Draw (sIdxs sSub : List Nat) (nc : Nat) (a : Nat × Nat × Nat) :
    Option (Nat × Nat) :=
  match (sIdxs.get? (a.1 * nc + a.2.2)).bind (fun j => sSub.get? j),
        (sIdxs.get? (a.2.1 * nc + a.2.2)).bind (fun j => sSub.get? j) with
  | some x1, some x2 => some (x1, x2)
  | _, _ => none

/-- The common shape of the four `while pair_cnt < n` loops: consume one random
draw per attempt, append `mk` of each successful draw, stop at `target`
appended pairs.  `retryOnErr` is true only for the G1 loop (its body catches
`IndexError` and retries); for the other loops a failed lookup propagates the
exception, modelled as `none`.  `none` is also returned when the supplied draw
stream is exhausted before the target is reached (the Python loop would keep
drawing). -/
def buildLoop {α : Type} (draw : α → Option (Nat × Nat)) (mk : Nat × Nat → DAPair)
    (retryOnErr : Bool) : Nat → List α → Option (List DAPair)
  | 0, _ => some []
  | _ + 1, [] => none
  | t + 1, a :: rest =>
    match draw a with
    | some x => (buildLoop draw mk retryOnErr t rest).map (fun l => mk x :: l)
    | none => if retryOnErr then buildLoop draw mk retryOnErr (t + 1) rest else none

/-- The G1 loop (lines 341-352): same-domain same-class pairs, label 0,
`IndexError` caught and retried. -/
def buildG1 (sIdxs sSub sDS : List Nat) (nc : Nat) :
    Nat → List (Nat × Nat × Nat) → Option (List DAPair) :=
  buildLoop (g1Draw sIdxs sSub nc)
    (fun x => (x, (0, (sDS.getD x.1 0, sDS.getD x.2 0)))) true

/-- One G2 draw (lines 357-360): the target-side position is
`p2 * s.num_classes + c` (the SOURCE class count, as in the source line 358). -/
def g2Draw (sIdxs sSub tIdxs tSub : List Nat) (s_nc : Nat) (a : Nat × Nat × Nat) :
    Option (Nat × Nat) :=
  match (sIdxs.get? (a.1 * s_nc + a.2.2)).bind (fun j => sSub.get? j),
        (tIdxs.get? (a.2.1 * s_nc + a.2.2)).bind (fun j => tSub.get? j) with
  | some x1, some x2 => some (x1, x2)
  | _, _ => none

/-- The G2 loop (lines 355-366): cross-domain same-class pairs, label 0 in the
adversarial stage and 1 otherwise; an `IndexError` is not caught. -/
def buildG2 (sIdxs sSub tIdxs tSub sDS tDS : List Nat) (s_nc : Nat) (adv : Bool) :
    Nat → List (Nat × Nat × Nat) → Option (List DAPair) :=
  buildLoop (g2Draw sIdxs sSub tIdxs tSub s_nc)
    (fun x => (x, ((if adv then 0 else 1), (sDS.getD x.1 0, tDS.getD x.2 0)))) false

/-- One G3 draw (lines 371-374): two partitions and two class slots `c1, c2`
(drawn distinct by `random.sample` in the source). -/
def g3Draw (sIdxs sSub : List Nat) (nc : Nat) (a : Nat × Nat × Nat × Nat) :
    Option (Nat × Nat) :=
  match (sIdxs.get? (a.1 * nc + a.2.2.1)).bind (fun j => sSub.get? j),
        (sIdxs.get? (a.2.1 * nc + a.2.2.2)).bind (fun j => sSub.get? j) with
  | some x1, some x2 => some (x1, x2)
  | _, _ => none

/-- The G3 loop (lines 369-377): same-domain different-class pairs, label 2. -/
def buildG3 (sIdxs sSub sDS : List Nat) (nc : Nat) :
    Nat → List (Nat × Nat × Nat × Nat) → Option (List DAPair) :=
  buildLoop (g3Draw sIdxs sSub nc)
    (fun x => (x, (2, (sDS.getD x.1 0, sDS.getD x.2 0)))) false

/-- One G4 draw (lines 382-385): source position `p1*s_nc+c1`, target position
`p2*t_nc+c2`. -/
def g4Draw (sIdxs sSub tIdxs tSub : List Nat) (s_nc t_nc : Nat)
    (a : Nat × Nat × Nat × Nat) : Option (Nat × Nat) :=
  match (sIdxs.get? (a.1 * s_nc + a.2.2.1)).bind (fun j => sSub.get? j),
        (tIdxs.get? (a.2.1 * t_nc + a.2.2.2)).bind (fun j => tSub.get? j) with
  | some x1, some x2 => some (x1, x2)
  | _, _ => none

/-- The G4 loop (lines 380-391): cross-domain different-class pairs, label 2 in
the adversarial stage and 3 otherwise. -/
def buildG4 (sIdxs sSub tIdxs tSub sDS tDS : List Nat) (s_nc t_nc : Nat)
    (adv : Bool) : Nat → List (Nat × Nat × Nat × Nat) → Option (List DAPair) :=
  buildLoop (g4Draw sIdxs sSub tIdxs tSub s_nc t_nc)
    (fun x => (x, ((if adv then 2 else 3), (sDS.getD x.1 0, tDS.getD x.2 0)))) false

/-- Construction data of a `DomainAdaptationPairDataset`: the source/target
dataset label lists, their `subset` index lists, the target `shot`, the
`pair_factor`, the `adv_stage` flag and the optional `subset` parameter of the
pair dataset itself. -/
structure PairInit where
  sDSLabels : List Nat
  tDSLabels : List Nat
  sSub : List Nat
  tSub : List Nat
  shot : Option Nat
  pf : Nat
  adv : Bool
  subsetParam : Option (List Nat)
deriving DecidableEq

/-- Model of `self.s_sampler = EvenSampler(self.source_dataset)`: its label list is
`[dataset.labels[idx] for idx in dataset.subset]`, no shot. -/
def PairInit.sSampler (pi : PairInit) : EvenSampler :=
  ⟨pi.sSub.map (fun i => pi.sDSLabels.getD i 0), none⟩

/-- Model of `self.t_sampler = EvenSampler(self.target_dataset, shot=shot)`. -/
def PairInit.tSampler (pi : PairInit) : EvenSampler :=
  ⟨pi.tSub.map (fun i => pi.tDSLabels.getD i 0), pi.shot⟩

/-- The fields of a constructed `DomainAdaptationPairDataset` that the claims
refer to. -/
structure PairDataset where
  minPairs : Nat
  G1 : List DAPair
  G2 : List DAPair
  G3 : List DAPair
  G4 : List DAPair
  groupImgs : List (List DAPair)
  subset : List Nat
  adv : Bool
deriving DecidableEq

instance : Inhabited PairDataset := ⟨⟨0, [], [], [], [], [], [], false⟩⟩

/-- Model of `DomainAdaptationPairDataset.__init__` from the two samplers onward:
capacities, budget, clamped group sizes, the four group-building loops (fed by
explicit sampler-shuffle outcomes and random-draw streams), the served group
list, and the subset.  `none` models a construction that raises.  Note the G4
loop bound is `self.num_G2_pairs`, exactly as in source line 381. -/
def buildAll (pi : PairInit) (sSh tSh : List (List Nat))
    (a1 a2 : List (Nat × Nat × Nat)) (a3 a4 : List (Nat × Nat × Nat × Nat)) :
    Option PairDataset :=
  (buildG1 (iterOnce pi.sSampler.initState sSh).1 pi.sSub pi.sDSLabels
      pi.sSampler.numClasses
      (Nat.min (num_G1_pairs pi.sSampler)
        (pi.pf * sharedBudget pi.sSampler pi.tSampler pi.pf)) a1).bind (fun g1 =>
  (buildG2 (iterOnce pi.sSampler.initState sSh).1 pi.sSub
      (iterOnce pi.tSampler.initState tSh).1 pi.tSub pi.sDSLabels pi.tDSLabels
      pi.sSampler.numClasses pi.adv
      (Nat.min (num_G2_pairs pi.sSampler pi.tSampler)
        (pi.pf * sharedBudget pi.sSampler pi.tSampler pi.pf)) a2).bind (fun g2 =>
  (buildG3 (iterOnce pi.sSampler.initState sSh).1 pi.sSub pi.sDSLabels
      pi.sSampler.numClasses
      (Nat.min (num_G3_pairs pi.sSampler)
        (pi.pf * sharedBudget pi.sSampler pi.tSampler pi.pf)) a3).bind (fun g3 =>
  (buildG4 (iterOnce pi.sSampler.initState sSh).1 pi.sSub
      (iterOnce pi.tSampler.initState tSh).1 pi.tSub pi.sDSLabels pi.tDSLabels
      pi.sSampler.numClasses pi.tSampler.numClasses pi.adv
      (Nat.min (num_G2_pairs pi.sSampler pi.tSampler)
        (pi.pf * sharedBudget pi.sSampler pi.tSampler pi.pf)) a4).map (fun g4 =>
  { minPairs := sharedBudget pi.sSampler pi.tSampler pi.pf,
    G1 := g1, G2 := g2, G3 := g3, G4 := g4,
    groupImgs := if pi.adv then [g2, g4] else [g1, g2, g3, g4],
    subset := match pi.subsetParam with
              | some sub => sub
              | none => List.range ((if pi.adv then 2 else 4)
                  * sharedBudget pi.sSampler pi.tSampler pi.pf),
    adv := pi.adv }))))

/-- The constructed dataset, defaulting on failure (used to state theorems
about a successful construction without binding the result). -/
def buildDS (pi : PairInit) (sSh tSh : List (List Nat))
    (a1 a2 : List (Nat × Nat × Nat)) (a3 a4 : List (Nat × Nat × Nat × Nat)) :
    PairDataset :=
  (buildAll pi sSh tSh a1 a2 a3 a4).getD default

-- ======================= pair-loop lemmas =======================

theorem buildLoop_length {α : Type} (draw : α → Option (Nat × Nat))
    (mk : Nat × Nat → DAPair) (r : Bool) (atts : List α) :
    ∀ (t : Nat) (l : List DAPair),
      buildLoop draw mk r t atts = some l → l.length = t := by
  induction atts with
  | nil =>
    intro t l h
    cases t with
    | zero =>
      simp only [buildLoop, Option.some.injEq] at h
      rw [← h]; rfl
    | succ n => simp [buildLoop] at h
  | cons a rest ih =>
    intro t l h
    cases t with
    | zero =>
      simp only [buildLoop, Option.some.injEq] at h
      rw [← h]; rfl
    | succ n =>
      rw [buildLoop] at h
      cases hd : draw a with
      | some x =>
        rw [hd] at h
        simp only [Option.map_eq_some'] at h
        rcases h with ⟨l', hl', hll⟩
        rw [← hll, List.length_cons, ih n l' hl']
      | none =>
        rw [hd] at h
        cases r with
        | true => exact ih (n + 1) l (by simpa using h)
        | false => simp at h

theorem buildLoop_label {α : Type} (draw : α → Option (Nat × Nat))
    (mk : Nat × Nat → DAPair) (r : Bool) (atts : List α) :
    ∀ (t : Nat) (l : List DAPair) (p : DAPair),
      buildLoop draw mk r t atts = some l → p ∈ l → ∃ x, p = mk x := by
  induction atts with
  | nil =>
    intro t l p h hp
    cases t with
    | zero =>
      simp only [buildLoop, Option.some.injEq] at h
      rw [← h] at hp; cases hp
    | succ n => simp [buildLoop] at h
  | cons a rest ih =>
    intro t l p h hp
    cases t with
    | zero =>
      simp only [buildLoop, Option.some.injEq] at h
      rw [← h] at hp; cases hp
    | succ n =>
      rw [buildLoop] at h
      cases hd : draw a with
      | some x =>
        rw [hd] at h
        simp only [Option.map_eq_some'] at h
        rcases h with ⟨l', hl', hll⟩
        rw [← hll] at hp
        rcases List.mem_cons.mp hp with hh | hh
        · exact ⟨x, hh⟩
        · exact ih n l' p hl' hh
      | none =>
        rw [hd] at h
        cases r with
        | true => exact ih (n + 1) l p (by simpa using h) hp
        | false => simp at h

theorem pf_budget_le (m pf : Nat) : pf * (m / pf) ≤ m := by
  rw [Nat.mul_comm]; exact Nat.div_mul_le_self m pf

theorem minCapacity_le_G1 (s t : EvenSampler) : minCapacity s t ≤ num_G1_pairs s :=
  Nat.le_trans (Nat.min_le_left _ _)
    (Nat.le_trans (Nat.min_le_left _ _) (Nat.min_le_left _ _))

theorem minCapacity_le_G2 (s t : EvenSampler) : minCapacity s t ≤ num_G2_pairs s t :=
  Nat.le_trans (Nat.min_le_left _ _)
    (Nat.le_trans (Nat.min_le_left _ _) (Nat.min_le_right _ _))

theorem minCapacity_le_G3 (s t : EvenSampler) : minCapacity s t ≤ num_G3_pairs s :=
  Nat.le_trans (Nat.min_le_left _ _) (Nat.min_le_right _ _)

theorem minCapacity_le_G4 (s t : EvenSampler) : minCapacity s t ≤ num_G4_pairs s t :=
  Nat.min_le_right _ _

theorem clamp_eq_pf_budget (s t : EvenSampler) (pf cap : Nat)
    (hcap : minCapacity s t ≤ cap) :
    Nat.min cap (pf * sharedBudget s t pf) = pf * sharedBudget s t pf :=
  Nat.min_eq_right (Nat.le_trans (pf_budget_le (minCapacity s t) pf) hcap)

/-- C2: `shared_budget` (`self.min_pairs` after `//=`) is the minimum of the
four capacities integer-divided by `pair_factor`, and each of the four groups
materializes exactly `min(its capacity, pair_factor * shared_budget)` pairs
(the G4 loop bound being `num_G2_pairs` makes no difference, since every
clamped size equals `pair_factor * shared_budget`). -/
theorem pairDataset_budget_sizes (pi : PairInit) (sSh tSh : List (List Nat))
    (a1 a2 : List (Nat × Nat × Nat)) (a3 a4 : List (Nat × Nat × Nat × Nat))
    (_hpf : 1 ≤ pi.pf)
    (h : (buildAll pi sSh tSh a1 a2 a3 a4).isSome = true) :
    (buildDS pi sSh tSh a1 a2 a3 a4).minPairs
      = minCapacity pi.sSampler pi.tSampler / pi.pf ∧
    (buildDS pi sSh tSh a1 a2 a3 a4).G1.length
      = Nat.min (num_G1_pairs pi.sSampler)
          (pi.pf * sharedBudget pi.sSampler pi.tSampler pi.pf) ∧
    (buildDS pi sSh tSh a1 a2 a3 a4).G2.length
      = Nat.min (num_G2_pairs pi.sSampler pi.tSampler)
          (pi.pf * sharedBudget pi.sSampler pi.tSampler pi.pf) ∧
    (buildDS pi sSh tSh a1 a2 a3 a4).G3.length
      = Nat.min (num_G3_pairs pi.sSampler)
          (pi.pf * sharedBudget pi.sSampler pi.tSampler pi.pf) ∧
    (buildDS pi sSh tSh a1 a2 a3 a4).G4.length
      = Nat.min (num_G4_pairs pi.sSampler pi.tSampler)
          (pi.pf * sharedBudget pi.sSampler pi.tSampler pi.pf) := by
  rcases Option.isSome_iff_exists.mp h with ⟨ds, hds⟩
  have hds2 := hds
  simp only [buildAll, Option.bind_eq_some, Option.map_eq_some'] at hds2
  rcases hds2 with ⟨g1, hg1, g2, hg2, g3, hg3, g4, hg4, hrec⟩
  have hbd : buildDS pi sSh tSh a1 a2 a3 a4 = ds := by
    simp [buildDS, hds]
  rw [hbd, ← hrec]
  refine ⟨rfl, ?_, ?_, ?_, ?_⟩
  · exact buildLoop_length _ _ _ _ _ _ hg1
  · exact buildLoop_length _ _ _ _ _ _ hg2
  · rw [buildLoop_length _ _ _ _ _ _ hg3]
  · rw [buildLoop_length _ _ _ _ _ _ hg4,
      clamp_eq_pf_budget _ _ _ _ (minCapacity_le_G2 pi.sSampler pi.tSampler),
      clamp_eq_pf_budget _ _ _ _ (minCapacity_le_G4 pi.sSampler pi.tSampler)]

-- a small concrete construction shared by several witnesses:
-- source dataset labels [0,0,1,1] (2 classes x 2), target labels [0,1]
-- (2 classes x 1), identity subsets, identity shuffles, and draw streams with
-- every lookup in range.  Capacities are G1=2, G2=4, G3=6, G4=4.

/-- Concrete `PairInit` with `pair_factor = 1`, normal mode. -/
def piSmall : PairInit :=
  ⟨[0, 0, 1, 1], [0, 1], [0, 1, 2, 3], [0, 1], none, 1, false, none⟩

/-- The same construction with `pair_factor = 2`. -/
def piSmallPf2 : PairInit :=
  ⟨[0, 0, 1, 1], [0, 1], [0, 1, 2, 3], [0, 1], none, 2, false, none⟩

/-- The same construction in adversarial mode. -/
def piSmallAdv : PairInit :=
  ⟨[0, 0, 1, 1], [0, 1], [0, 1, 2, 3], [0, 1], none, 1, true, none⟩

/-- Identity shuffle of the source buckets `[[0,1],[2,3]]`. -/
def shSmallS : List (List Nat) := [[0, 1], [2, 3]]

/-- Identity shuffle of the target buckets `[[0],[1]]`. -/
def shSmallT : List (List Nat) := [[0], [1]]

/-- G1 draw stream: two in-range `(p1, p2, c)` triples. -/
def a1Small : List (Nat × Nat × Nat) := [(0, 0, 0), (0, 1, 0)]

/-- G2 draw stream. -/
def a2Small : List (Nat × Nat × Nat) := [(0, 0, 0), (0, 0, 1)]

/-- G3 draw stream: `(p1, p2, c1, c2)` with distinct class slots. -/
def a3Small : List (Nat × Nat × Nat × Nat) := [(0, 0, 0, 1), (0, 0, 1, 0)]

/-- G4 draw stream. -/
def a4Small : List (Nat × Nat × Nat × Nat) := [(0, 0, 0, 1), (0, 0, 1, 0)]

/-- C2 witness: the concrete construction succeeds and its G4 group size equals
`min(G4 capacity, pair_factor * shared_budget)`. -/
theorem pairDataset_budget_sizes_witness :
    (buildDS piSmall shSmallS shSmallT a1Small a2Small a3Small a4Small).G4.length
      = Nat.min (num_G4_pairs piSmall.sSampler piSmall.tSampler)
          (piSmall.pf * sharedBudget piSmall.sSampler piSmall.tSampler piSmall.pf) :=
  (pairDataset_budget_sizes piSmall shSmallS shSmallT a1Small a2Small a3Small a4Small
    (by decide) (by decide)).2.2.2.2

/-- C5 (amended): with no explicit `subset`, `__len__()` is
`4 * shared_budget` in normal mode and `2 * shared_budget` in adversarial mode
(`len(range((4 or 2) * self.min_pairs))`).  This equals the sum of the served
groups' realized sizes exactly when `pair_factor = 1`, because every realized
group size is `pair_factor * shared_budget`, not `shared_budget`. -/
theorem pairDataset_len (pi : PairInit) (sSh tSh : List (List Nat))
    (a1 a2 : List (Nat × Nat × Nat)) (a3 a4 : List (Nat × Nat × Nat × Nat))
    (hsub : pi.subsetParam = none)
    (h : (buildAll pi sSh tSh a1 a2 a3 a4).isSome = true) :
    (buildDS pi sSh tSh a1 a2 a3 a4).subset.length
      = (if pi.adv then 2 else 4) * (buildDS pi sSh tSh a1 a2 a3 a4).minPairs ∧
    (pi.pf = 1 →
      (buildDS pi sSh tSh a1 a2 a3 a4).subset.length
        = ((buildDS pi sSh tSh a1 a2 a3 a4).groupImgs.map List.length).sum) := by
  rcases Option.isSome_iff_exists.mp h with ⟨ds, hds⟩
  have hds2 := hds
  simp only [buildAll, Option.bind_eq_some, Option.map_eq_some'] at hds2
  rcases hds2 with ⟨g1, hg1, g2, hg2, g3, hg3, g4, hg4, hrec⟩
  have hbd : buildDS pi sSh tSh a1 a2 a3 a4 = ds := by
    simp [buildDS, hds]
  rw [hbd, ← hrec]
  have hl1 := buildLoop_length _ _ _ _ _ _ hg1
  have hl2 := buildLoop_length _ _ _ _ _ _ hg2
  have hl3 := buildLoop_length _ _ _ _ _ _ hg3
  have hl4 := buildLoop_length _ _ _ _ _ _ hg4
  constructor
  · simp only [hsub]
    rw [List.length_range]
  · intro hpf1
    have hm1 : Nat.min (num_G1_pairs pi.sSampler)
        (pi.pf * sharedBudget pi.sSampler pi.tSampler pi.pf)
        = sharedBudget pi.sSampler pi.tSampler pi.pf := by
      rw [hpf1, Nat.one_mul, sharedBudget, Nat.div_one]
      exact Nat.min_eq_right (minCapacity_le_G1 _ _)
    have hm2 : Nat.min (num_G2_pairs pi.sSampler pi.tSampler)
        (pi.pf * sharedBudget pi.sSampler pi.tSampler pi.pf)
        = sharedBudget pi.sSampler pi.tSampler pi.pf := by
      rw [hpf1, Nat.one_mul, sharedBudget, Nat.div_one]
      exact Nat.min_eq_right (minCapacity_le_G2 _ _)
    have hm3 : Nat.min (num_G3_pairs pi.sSampler)
        (pi.pf * sharedBudget pi.sSampler pi.tSampler pi.pf)
        = sharedBudget pi.sSampler pi.tSampler pi.pf := by
      rw [hpf1, Nat.one_mul, sharedBudget, Nat.div_one]
      exact Nat.min_eq_right (minCapacity_le_G3 _ _)
    simp only [hsub]
    rw [List.length_range]
    cases hadv : pi.adv with
    | true =>
      show 2 * sharedBudget pi.sSampler pi.tSampler pi.pf
          = ([g2, g4].map List.length).sum
      simp only [List.map_cons, List.map_nil, List.sum_cons, List.sum_nil]
      rw [hl2, hl4, hm2]
      omega
    | false =>
      show 4 * sharedBudget pi.sSampler pi.tSampler pi.pf
          = ([g1, g2, g3, g4].map List.length).sum
      simp only [List.map_cons, List.map_nil, List.sum_cons, List.sum_nil]
      rw [hl1, hl2, hl3, hl4, hm1, hm2, hm3]
      omega

/-- C5 witness: the concrete `pair_factor = 1` construction has
`len = 4 * shared_budget`. -/
theorem pairDataset_len_witness :
    (buildDS piSmall shSmallS shSmallT a1Small a2Small a3Small a4Small).subset.length
      = (if piSmall.adv then 2 else 4)
        * (buildDS piSmall shSmallS shSmallT a1Small a2Small a3Small a4Small).minPairs :=
  (pairDataset_len piSmall shSmallS shSmallT a1Small a2Small a3Small a4Small
    rfl (by decide)).1

/-- C5 counterexample: with `pair_factor = 2` (capacities 2,4,6,4, so
`shared_budget = 1`) the construction succeeds, `length()` is `4`, but the sum
of the realized (served) group sizes is `8` — `length()` does not equal the sum
of the realized group sizes. -/
theorem pairDataset_len_cex :
    ((buildAll piSmallPf2 shSmallS shSmallT a1Small a2Small a3Small a4Small).map
      (fun ds => (ds.subset.length, (ds.groupImgs.map List.length).sum)))
      = some (4, 8) ∧
    ((buildAll piSmallPf2 shSmallS shSmallT a1Small a2Small a3Small a4Small).map
      (fun ds => decide (ds.subset.length = (ds.groupImgs.map List.length).sum)))
      = some false := by decide

/-- C6 (amended): in adversarial mode only the two cross-domain groups are
SERVED — `group_imgs = [G2, G4]` — and their pair labels are remapped to `0`
and `2`; but the two same-domain groups G1 and G3 are still materialized (their
loops run unconditionally, producing the usual clamped sizes); they are merely
excluded from `group_imgs`. -/
theorem pairDataset_adv (pi : PairInit) (sSh tSh : List (List Nat))
    (a1 a2 : List (Nat × Nat × Nat)) (a3 a4 : List (Nat × Nat × Nat × Nat))
    (hadv : pi.adv = true)
    (h : (buildAll pi sSh tSh a1 a2 a3 a4).isSome = true) :
    (buildDS pi sSh tSh a1 a2 a3 a4).groupImgs
      = [(buildDS pi sSh tSh a1 a2 a3 a4).G2, (buildDS pi sSh tSh a1 a2 a3 a4).G4] ∧
    (∀ p ∈ (buildDS pi sSh tSh a1 a2 a3 a4).G2, p.2.1 = 0) ∧
    (∀ p ∈ (buildDS pi sSh tSh a1 a2 a3 a4).G4, p.2.1 = 2) ∧
    (buildDS pi sSh tSh a1 a2 a3 a4).G1.length
      = Nat.min (num_G1_pairs pi.sSampler)
          (pi.pf * sharedBudget pi.sSampler pi.tSampler pi.pf) ∧
    (buildDS pi sSh tSh a1 a2 a3 a4).G3.length
      = Nat.min (num_G3_pairs pi.sSampler)
          (pi.pf * sharedBudget pi.sSampler pi.tSampler pi.pf) := by
  rcases Option.isSome_iff_exists.mp h with ⟨ds, hds⟩
  have hds2 := hds
  simp only [buildAll, Option.bind_eq_some, Option.map_eq_some'] at hds2
  rcases hds2 with ⟨g1, hg1, g2, hg2, g3, hg3, g4, hg4, hrec⟩
  have hbd : buildDS pi sSh tSh a1 a2 a3 a4 = ds := by
    simp [buildDS, hds]
  rw [hbd, ← hrec]
  refine ⟨by simp [hadv], ?_, ?_, ?_, ?_⟩
  · intro p hp
    rcases buildLoop_label _ _ _ _ _ _ p hg2 hp with ⟨x, hx⟩
    rw [hx, hadv]
    rfl
  · intro p hp
    rcases buildLoop_label _ _ _ _ _ _ p hg4 hp with ⟨x, hx⟩
    rw [hx, hadv]
    rfl
  · exact buildLoop_length _ _ _ _ _ _ hg1
  · exact buildLoop_length _ _ _ _ _ _ hg3

/-- C6 witness: the concrete adversarial construction serves exactly its two
cross-domain groups. -/
theorem pairDataset_adv_witness :
    (buildDS piSmallAdv shSmallS shSmallT a1Small a2Small a3Small a4Small).groupImgs
      = [(buildDS piSmallAdv shSmallS shSmallT a1Small a2Small a3Small a4Small).G2,
         (buildDS piSmallAdv shSmallS shSmallT a1Small a2Small a3Small a4Small).G4] :=
  (pairDataset_adv piSmallAdv shSmallS shSmallT a1Small a2Small a3Small a4Small
    rfl (by decide)).1

/-- C6 counterexample: the concrete adversarial construction still materializes
the two same-domain groups — G1 and G3 each hold 2 pairs (`≠ 0`) even though
only 2 groups are served — refuting "the same-domain groups are not constructed
at all". -/
theorem pairDataset_adv_cex :
    ((buildAll piSmallAdv shSmallS shSmallT a1Small a2Small a3Small a4Small).map
      (fun ds => (ds.adv, ds.groupImgs.length, ds.G1.length, ds.G3.length)))
      = some (true, 2, 2, 2) := by decide

/-- C10: a G1 draw whose two partition picks coincide (`p1 = p2 = p`, same class
slot `c`) reads the same source sample twice; the G1 loop appends this
self-pair — identical index on both sides, hence identical image path and
identical labels — with no check rejecting it. -/
theorem g1_self_pair (sIdxs sSub sDS : List Nat) (nc p c t : Nat)
    (rest : List (Nat × Nat × Nat)) (x : Nat)
    (hx : (sIdxs.get? (p * nc + c)).bind (fun j => sSub.get? j) = some x) :
    g1Draw sIdxs sSub nc (p, p, c) = some (x, x) ∧
    buildG1 sIdxs sSub sDS nc (t + 1) ((p, p, c) :: rest)
      = (buildG1 sIdxs sSub sDS nc t rest).map
          (fun l => ((x, x), (0, (sDS.getD x 0, sDS.getD x 0))) :: l) := by
  have hd : g1Draw sIdxs sSub nc (p, p, c) = some (x, x) := by
    unfold g1Draw
    rw [hx]
  refine ⟨hd, ?_⟩
  show buildLoop _ _ _ (t + 1) ((p, p, c) :: rest) = _
  rw [buildLoop, hd]
  rfl

/-- C10 witness: on the concrete small construction, the draw `(0, 0, 0)`
materializes the self-pair `((0, 0), (0, (0, 0)))`. -/
theorem g1_self_pair_witness :
    buildG1 [0, 2, 1, 3] [0, 1, 2, 3] [0, 0, 1, 1] 2 1 [(0, 0, 0)]
      = some [((0, 0), (0, (0, 0)))] := by
  rw [(g1_self_pair [0, 2, 1, 3] [0, 1, 2, 3] [0, 0, 1, 1] 2 0 0 0 [] 0 (by decide)).2]
  rfl

-- ======================= C3: capacities vs the spec formulas =======================

/-- Spec formula (refinement side of C3): SS-same-class capacity
`Σ_c C(source_count[c], 2)`. -/
def specCapSSsame (sourceCount : List Nat) : Nat :=
  (sourceCount.map (fun n => Nat.choose n 2)).sum

/-- Spec formula (refinement side of C3): ST-same-class capacity
`Σ_c source_count[c] × target_count[c]`. -/
def specCapSTsame (sourceCount targetCount : List Nat) : Nat :=
  ((List.range sourceCount.length).map
    (fun c => sourceCount.getD c 0 * targetCount.getD c 0)).sum

/-- Spec formula (refinement side of C3): SS-diff-class capacity
`C(total_source_samples, 2)`, NOT excluding same-class combinations. -/
def specCapSSdiff (totalSourceSamples : Nat) : Nat :=
  Nat.choose totalSourceSamples 2

/-- Spec formula (refinement side of C3): ST-diff-class capacity
`Σ_{c ≠ c2} source_count[c] × target_count[c2]`. -/
def specCapSTdiff (sourceCount targetCount : List Nat) : Nat :=
  ((List.range sourceCount.length).map (fun c =>
    (((List.range targetCount.length).filter (fun c2 => decide (c ≠ c2))).map
      (fun c2 => sourceCount.getD c 0 * targetCount.getD c2 0)).sum)).sum

theorem sum_map_range_eq_finset (f : Nat → Nat) (n : Nat) :
    ((List.range n).map f).sum = ∑ i ∈ Finset.range n, f i := by
  induction n with
  | zero => simp
  | succ m ih =>
    rw [List.range_succ, List.map_append, List.sum_append, Finset.sum_range_succ, ih]
    simp

theorem sum_map_filter_range (p : Nat → Bool) (f : Nat → Nat) (n : Nat) :
    (((List.range n).filter p).map f).sum
      = ∑ i ∈ Finset.range n, if p i = true then f i else 0 := by
  induction n with
  | zero => simp
  | succ m ih =>
    rw [List.range_succ, List.filter_append, List.map_append, List.sum_append,
      Finset.sum_range_succ, ih]
    cases hp : p m <;> simp [hp]

theorem map_range_getD (l : List Nat) (f : Nat → Nat) :
    (List.range l.length).map (fun i => f (l.getD i 0)) = l.map f := by
  apply List.ext_getElem
  · simp
  · intro i h1 h2
    simp only [List.getElem_map, List.getElem_range]
    rw [List.getD_eq_getElem _ _ (by simpa using h2)]

theorem classIdxLens_length (sp : EvenSampler) :
    sp.classIdxLens.length = sp.numClasses := by
  rw [EvenSampler.classIdxLens, List.length_map, classIdxs_length]

/-- C3: the four computed group capacities equal the spec's formulas — under
the class-name check's guarantee that source and target have the same number
of classes — with SS-diff-class genuinely `C(total_source_samples, 2)`. -/
theorem pair_capacities_spec (s t : EvenSampler) (h : s.numClasses = t.numClasses) :
    num_G1_pairs s = specCapSSsame s.classIdxLens ∧
    num_G2_pairs s t = specCapSTsame s.classIdxLens t.classIdxLens ∧
    num_G3_pairs s = specCapSSdiff s.labels.length ∧
    num_G4_pairs s t = specCapSTdiff s.classIdxLens t.classIdxLens := by
  refine ⟨?_, ?_, rfl, ?_⟩
  · rw [num_G1_pairs, specCapSSsame, ← classIdxLens_length s,
      map_range_getD s.classIdxLens (fun n => Nat.choose n 2)]
  · rw [num_G2_pairs, specCapSTsame, classIdxLens_length s, h]
  · rw [num_G4_pairs, specCapSTdiff, classIdxLens_length s, classIdxLens_length t, ← h]
    rw [sum_map_range_eq_finset
      (fun i => (((List.range s.numClasses).filter (fun j => decide (i ≠ j))).map
        (fun j => s.classIdxLens.getD j 0 * t.classIdxLens.getD i 0)).sum) s.numClasses]
    rw [sum_map_range_eq_finset
      (fun c => (((List.range s.numClasses).filter (fun c2 => decide (c ≠ c2))).map
        (fun c2 => s.classIdxLens.getD c 0 * t.classIdxLens.getD c2 0)).sum) s.numClasses]
    have hL : ∀ i : Nat,
        (((List.range s.numClasses).filter (fun j => decide (i ≠ j))).map
          (fun j => s.classIdxLens.getD j 0 * t.classIdxLens.getD i 0)).sum
        = ∑ j ∈ Finset.range s.numClasses,
            if i ≠ j then s.classIdxLens.getD j 0 * t.classIdxLens.getD i 0 else 0 := by
      intro i
      rw [sum_map_filter_range (fun j => decide (i ≠ j))
        (fun j => s.classIdxLens.getD j 0 * t.classIdxLens.getD i 0) s.numClasses]
      apply Finset.sum_congr rfl
      intro j _
      simp
    have hR : ∀ c : Nat,
        (((List.range s.numClasses).filter (fun c2 => decide (c ≠ c2))).map
          (fun c2 => s.classIdxLens.getD c 0 * t.classIdxLens.getD c2 0)).sum
        = ∑ c2 ∈ Finset.range s.numClasses,
            if c ≠ c2 then s.classIdxLens.getD c 0 * t.classIdxLens.getD c2 0 else 0 := by
      intro c
      rw [sum_map_filter_range (fun c2 => decide (c ≠ c2))
        (fun c2 => s.classIdxLens.getD c 0 * t.classIdxLens.getD c2 0) s.numClasses]
      apply Finset.sum_congr rfl
      intro c2 _
      simp
    calc (∑ i ∈ Finset.range s.numClasses,
            (((List.range s.numClasses).filter (fun j => decide (i ≠ j))).map
              (fun j => s.classIdxLens.getD j 0 * t.classIdxLens.getD i 0)).sum)
        = ∑ i ∈ Finset.range s.numClasses, ∑ j ∈ Finset.range s.numClasses,
            if i ≠ j then s.classIdxLens.getD j 0 * t.classIdxLens.getD i 0 else 0 := by
          exact Finset.sum_congr rfl (fun i _ => hL i)
      _ = ∑ j ∈ Finset.range s.numClasses, ∑ i ∈ Finset.range s.numClasses,
            if i ≠ j then s.classIdxLens.getD j 0 * t.classIdxLens.getD i 0 else 0 :=
          Finset.sum_comm
      _ = ∑ c ∈ Finset.range s.numClasses, ∑ c2 ∈ Finset.range s.numClasses,
            if c ≠ c2 then s.classIdxLens.getD c 0 * t.classIdxLens.getD c2 0 else 0 := by
          refine Finset.sum_congr rfl (fun j _ => Finset.sum_congr rfl (fun i _ => ?_))
          exact if_congr ne_comm rfl rfl
      _ = ∑ c ∈ Finset.range s.numClasses,
            (((List.range s.numClasses).filter (fun c2 => decide (c ≠ c2))).map
              (fun c2 => s.classIdxLens.getD c 0 * t.classIdxLens.getD c2 0)).sum := by
          exact Finset.sum_congr rfl (fun c _ => (hR c).symm)

/-- The spec's capacity scenario: source domain 2 classes × 20 images. -/
def sScenario : EvenSampler := ⟨List.replicate 20 0 ++ List.replicate 20 1, none⟩

/-- The spec's capacity scenario: target domain 2 classes × 3 images, shot 3. -/
def tScenario : EvenSampler := ⟨List.replicate 3 0 ++ List.replicate 3 1, some 3⟩

/-- C3 witness: on the spec scenario the formulas agree and evaluate to
`SS-same = 380`, `ST-same = 120`, `SS-diff = C(40,2) = 780`. -/
theorem pair_capacities_spec_witness :
    num_G2_pairs sScenario tScenario
      = specCapSTsame sScenario.classIdxLens tScenario.classIdxLens ∧
    num_G1_pairs sScenario = 380 ∧
    num_G2_pairs sScenario tScenario = 120 ∧
    num_G3_pairs sScenario = 780 :=
  ⟨(pair_capacities_spec sScenario tScenario (by decide)).2.1,
   by decide, by decide, by decide⟩

-- ======================= C8: the class-name check =======================

/-- The check at lines 275-278: `source_img_classes` and `target_img_classes`
are the two `next(os.walk(...))[1]` subdirectory-name LISTS, compared with
`==`; on mismatch an `AssertionError` is raised. -/
def checkDomainClasses (sourceClasses targetClasses : List String) :
    Except String Unit :=
  if sourceClasses = targetClasses then .ok ()
  else .error "source and target classes not the same"

/-- C8 (amended): the class-mismatch error is raised iff the class-name LISTS
(in directory enumeration order) differ; equal name SETS in a different order
still raise, so "identical class-name sets never cause the error" is false. -/
theorem checkDomainClasses_ok_iff (s t : List String) :
    checkDomainClasses s t = .ok () ↔ s = t := by
  unfold checkDomainClasses
  split
  · simp_all
  · simp_all

/-- C8 witness: identical lists pass the check. -/
theorem checkDomainClasses_ok_iff_witness :
    checkDomainClasses ["a", "b"] ["a", "b"] = .ok () :=
  (checkDomainClasses_ok_iff ["a", "b"] ["a", "b"]).mpr rfl

/-- C8 counterexample: `["a","b"]` and `["b","a"]` have identical class-name
sets, yet the check raises. -/
theorem checkDomainClasses_cex :
    (["a", "b"] : List String).toFinset = (["b", "a"] : List String).toFinset ∧
    checkDomainClasses ["a", "b"] ["b", "a"]
      = .error "source and target classes not the same" := by
  constructor
  · decide
  · rfl

-- ======================= C9: pairs_get_datasets control flow =======================

/-- Externally visible construction events of `pairs_get_datasets`. -/
inductive GDEvent where
  | constructPair : GDEvent
  | constructClassification : GDEvent
  | evenSamplerUse : GDEvent
  | assertFail : GDEvent
deriving DecidableEq

/-- Control-flow trace of `pairs_get_datasets` (lines 727-797): a
`DomainAdaptationPairDataset` is constructed unconditionally at line 746; then
either the `constrained_validation` branch builds two more pair datasets, or
the other branch first runs `assert conf.k >= 3` and on success builds seven
`ClassificationDataset`s (with an `EvenSampler` between the 4th and 5th) and
two pair datasets. -/
def pairs_get_datasets_trace (k : Nat) (constrained_validation : Bool) :
    List GDEvent :=
  GDEvent.constructPair ::
    (if constrained_validation then
      [GDEvent.constructPair, GDEvent.constructPair]
     else if 3 ≤ k then
      [GDEvent.constructClassification, GDEvent.constructClassification,
       GDEvent.constructClassification, GDEvent.constructClassification,
       GDEvent.evenSamplerUse, GDEvent.constructClassification,
       GDEvent.constructClassification, GDEvent.constructClassification,
       GDEvent.constructPair, GDEvent.constructPair]
     else [GDEvent.assertFail])

/-- C9 (amended): the assertion `k >= 3` fails iff `constrained_validation` is
false AND `k < 3` — so `k = 3` passes and construction proceeds — and even a
failing call has already constructed a `DomainAdaptationPairDataset` at
function entry, before the assert. -/
theorem pairs_get_datasets_assert (k : Nat) (cv : Bool) :
    (GDEvent.assertFail ∈ pairs_get_datasets_trace k cv ↔ (cv = false ∧ k < 3)) ∧
    (pairs_get_datasets_trace k cv).head? = some GDEvent.constructPair := by
  cases cv with
  | true => simp [pairs_get_datasets_trace]
  | false =>
    by_cases h : 3 ≤ k
    · constructor
      · simp [pairs_get_datasets_trace, h]
      · simp [pairs_get_datasets_trace]
    · constructor
      · simp [pairs_get_datasets_trace, h]
        omega
      · simp [pairs_get_datasets_trace]

/-- C9 witness: `k = 2`, `constrained_validation = False` does fail the
assertion. -/
theorem pairs_get_datasets_assert_witness :
    GDEvent.assertFail ∈ pairs_get_datasets_trace 2 false :=
  (pairs_get_datasets_assert 2 false).1.mpr ⟨rfl, by decide⟩

/-- C9 counterexample: with `k = 3` and `constrained_validation = False` no
assertion failure occurs — `k >= 3` passes — and a pair dataset is
constructed. -/
theorem pairs_get_datasets_assert_cex :
    GDEvent.assertFail ∉ pairs_get_datasets_trace 3 false ∧
    GDEvent.constructPair ∈ pairs_get_datasets_trace 3 false := by decide

end DAPairs
